import Mathlib

/-!
Verification of `serverless-cloudwatch-logs-exporter.py`.

Shallow embedding of the core of the script:

* `get_tsk_status` (source lines 265-300): the export-task poller with its
  backoff counter, modelled as a total function over a provider oracle
  `Nat → PollResp` giving the result of each successive
  `describe_export_tasks` call.
* the window computation inside `export_cw_logs_to_s3`
  (source lines 227-236), modelled as `export_window` over millisecond
  epoch integers.
* `export_cw_logs_to_s3` (source lines 208-263): the per-source export
  flow (bucket check, submission, poll, outcome assembly).
* `filter_logs_to_export` (source lines 188-206) and the tail of
  `lambda_handler` (source lines 327-353): filtering and the
  per-source orchestration loop, modelled from the point where the
  log-group listing has succeeded.

External effects are parameters: the result of the bucket HEAD check, the
result of `create_export_task`, and the sequence of poll responses.

The result records mirror the Python `resp_data` dictionaries.  The poller
result additionally carries ghost trace fields that record observable
behaviour the claims speak about: `sleeps` is the list of `time.sleep`
durations in order, `checks` is the value of the backoff counter `t` at
each `t > time_out` comparison, and `polls` is the number of
`describe_export_tasks` calls made (attempted calls included).
-/

namespace CwExporter

/-- Result of one `describe_export_tasks` call: either the status code of
`resp['exportTasks'][0]['status']['code']`, or a raised exception with its
message. -/
inductive PollResp where
  | ok (code : String)
  | err (msg : String)
  deriving Repr, DecidableEq

/-- The `resp_data` dictionary built by `get_tsk_status`, plus ghost trace
fields (`sleeps`, `checks`, `polls`) recording the slept durations, the
counter value at each timeout comparison, and the number of polls. -/
structure TskStatusResult where
  status : Bool
  tsk_info : Option String
  error_message : String
  sleeps : List Nat
  checks : List Nat
  polls : Nat
  deriving Repr, DecidableEq

/-- The `while True` loop of `get_tsk_status` (source lines 283-297).
`n` is the number of polls already made, `t` the backoff counter,
`sleeps`/`checks` the trace accumulated so far.  Each iteration polls the
provider; an exception ends the loop through the `except` clause; otherwise
the counter is compared against the timeout, and a non-`COMPLETED` status
doubles the counter and sleeps for the doubled value before re-polling. -/
def pollLoop (tsk_id : String) (provider : Nat → PollResp) (time_out : Nat)
    (n t : Nat) (ht : 0 < t) (sleeps checks : List Nat) : TskStatusResult :=
  match provider n with
  | PollResp.err e =>
      { status := false, tsk_info := none,
        error_message := "Unable to verify status of task:" ++ tsk_id ++ ". ERROR:" ++ e,
        sleeps := sleeps, checks := checks, polls := n + 1 }
  | PollResp.ok code =>
      if h1 : t > time_out then
        { status := false, tsk_info := some code,
          error_message := "Task:" ++ tsk_id ++ " is still running. Status:" ++ code,
          sleeps := sleeps, checks := checks ++ [t], polls := n + 1 }
      else if code ≠ "COMPLETED" then
        pollLoop tsk_id provider time_out (n + 1) (2 * t) (by omega)
          (sleeps ++ [2 * t]) (checks ++ [t])
      else
        { status := true, tsk_info := some code, error_message := "",
          sleeps := sleeps, checks := checks ++ [t], polls := n + 1 }
termination_by time_out + 1 - t
decreasing_by omega

/-- `get_tsk_status(tsk_id, time_out)` (source lines 265-300).  A falsy
(`0`) timeout is replaced by the default `300`; the counter is seeded
at `3`. -/
def get_tsk_status (tsk_id : String) (provider : Nat → PollResp)
    (time_out : Nat) : TskStatusResult :=
  let eff := if time_out = 0 then 300 else time_out
  pollLoop tsk_id provider eff 0 3 (by omega) [] []

/-- Number of polls a run of `pollLoop` makes when every poll answers and
none reports `COMPLETED` before the counter exceeds the timeout: poll once,
and if the counter is not yet above the timeout, double it and continue.
Depends only on the timeout and the counter. -/
def pollsUntil (time_out t : Nat) (ht : 0 < t) : Nat :=
  if h1 : t > time_out then 1
  else 1 + pollsUntil time_out (2 * t) (by omega)
termination_by time_out + 1 - t
decreasing_by omega

/-- A `TimeWindow` as computed in `export_cw_logs_to_s3`: `f_time` and
`t_time` are millisecond epoch timestamps. -/
structure TimeWindow where
  f_time : Int
  t_time : Int
  deriving Repr, DecidableEq

/-- One day in milliseconds. -/
def msPerDay : Int := 86400000

/-- The window computation of `export_cw_logs_to_s3` (source lines
227-236): a falsy (`0`) retention is replaced by the default `90`;
`f_time` is `now - (retention_days + 1)` days and `t_time` is
`now - retention_days` days, in millisecond epoch time.  `now_ms` is
`datetime.datetime.now()` expressed in epoch milliseconds; naive datetime
subtraction of `timedelta(days = d)` is exactly `d * 86400000` ms. -/
def export_window (now_ms : Int) (retention_days : Nat) : TimeWindow :=
  let rd : Nat := if retention_days = 0 then 90 else retention_days
  { f_time := now_ms - ((rd : Int) + 1) * msPerDay,
    t_time := now_ms - (rd : Int) * msPerDay }

/-- The `bucket_exists_status` dictionary returned by
`does_bucket_exists` (source lines 134-157). -/
structure BucketExistsStatus where
  status : Bool
  error_message : String
  deriving Repr, DecidableEq

/-- The `resp_data` dictionary of `export_cw_logs_to_s3`, plus a ghost
flag `submitted` recording whether `create_export_task` was called. -/
structure ExportResult where
  status : Bool
  task_info : Option String
  error_message : String
  submitted : Bool
  deriving Repr, DecidableEq

/-- `export_cw_logs_to_s3` (source lines 208-263), with its external
effects as parameters: `bucket` is the `does_bucket_exists` result,
`submit` the result of `create_export_task` (task id, or the raised
exception's message), `provider` the poll oracle.  If the bucket check
fails the function returns its error without submitting.  Otherwise it
submits and polls; the final success check reads `resp.get('status')` -
the bucket-check result, not the poll result `r` - exactly as the source
does (line 256), so the embedding keeps that branch on `bucket.status`.
The window computation (lines 227-236) is `export_window`; its value flows
only into the submission request, which is external here. -/
def export_cw_logs_to_s3 (time_out : Nat) (bucket : BucketExistsStatus)
    (submit : Except String String) (provider : Nat → PollResp) : ExportResult :=
  if bucket.status = false then
    { status := false, task_info := none,
      error_message := bucket.error_message, submitted := false }
  else
    match submit with
    | Except.error e =>
        { status := false, task_info := none, error_message := e, submitted := true }
    | Except.ok tsk_id =>
        let r := get_tsk_status tsk_id provider time_out
        if bucket.status then
          { status := true, task_info := r.tsk_info, error_message := "",
            submitted := true }
        else
          { status := false, task_info := none,
            error_message := r.error_message, submitted := true }

/-- A CloudWatch log group, reduced to the one field the core reads. -/
structure LogGroup where
  logGroupName : String
  deriving Repr, DecidableEq

/-- The `resp_data` dictionary of `filter_logs_to_export`. -/
structure FilterResult where
  status : Bool
  log_groups : List LogGroup
  error_message : String
  deriving Repr, DecidableEq

/-- `filter_logs_to_export` (source lines 188-206): keep the log groups
whose name is in `cw_logs_to_export`; `status` becomes true as soon as one
matches. -/
def filter_logs_to_export (cw_logs_to_export : List String)
    (lgs : List LogGroup) : FilterResult :=
  lgs.foldl
    (fun acc lg =>
      if lg.logGroupName ∈ cw_logs_to_export then
        { acc with log_groups := acc.log_groups ++ [lg], status := true }
      else acc)
    { status := false, log_groups := [], error_message := "" }

/-- Per-source external behaviour: the bucket HEAD result, the submission
result, and the poll oracle observed while processing that source. -/
structure SourceEnv where
  bucket : BucketExistsStatus
  submit : Except String String
  provider : Nat → PollResp

/-- The `resp_data` dictionary of `lambda_handler` (the fields the
modelled tail writes). -/
structure RunResult where
  status : Bool
  error_message : String
  export_tasks : List ExportResult

/-- The tail of `lambda_handler` (source lines 327-353), from the point
where the log-group listing has succeeded with groups `lgs`: filter, fail
the run if the filtered set is empty (`not (status or log_groups)`),
otherwise run `export_cw_logs_to_s3` for each filtered group in order and
set the run status to true. -/
def lambda_handler (cw_logs_to_export : List String) (lgs : List LogGroup)
    (time_out : Nat) (env : String → SourceEnv) : RunResult :=
  let f_lgs := filter_logs_to_export cw_logs_to_export lgs
  if !(f_lgs.status || !f_lgs.log_groups.isEmpty) then
    { status := false,
      error_message :=
        "There are no log group matching the filter or Unable to get a filtered list of cloudwatch Logs."
          ++ " ERROR:" ++ f_lgs.error_message,
      export_tasks := [] }
  else
    { status := true, error_message := "",
      export_tasks := f_lgs.log_groups.map fun lg =>
        export_cw_logs_to_s3 time_out (env lg.logGroupName).bucket
          (env lg.logGroupName).submit (env lg.logGroupName).provider }

/-! ## Helper lemmas -/

/-- The sleep trace of `pollLoop` extends the accumulator with successive
doublings of the counter: the i-th new sleep is `2 ^ (i + 1) * t`. -/
theorem pollLoop_sleeps_shape (tsk_id : String) (provider : Nat → PollResp) (time_out : Nat)
    (n t : Nat) (ht : 0 < t) (sleeps checks : List Nat) :
    ∃ k, (pollLoop tsk_id provider time_out n t ht sleeps checks).sleeps =
      sleeps ++ (List.range k).map (fun i => 2 ^ (i + 1) * t) := by
  induction n, t, ht, sleeps, checks using pollLoop.induct tsk_id provider time_out with
  | case1 n t ht sleeps checks e h =>
      exact ⟨0, by rw [pollLoop.eq_def, h]; simp⟩
  | case2 n t ht sleeps checks code h h1 =>
      refine ⟨0, ?_⟩
      rw [pollLoop.eq_def, h]
      simp [h1]
  | case3 n t ht sleeps checks code h h1 h2 ih =>
      obtain ⟨k, hk⟩ := ih
      refine ⟨k + 1, ?_⟩
      rw [pollLoop.eq_def, h]
      simp only [dif_neg h1, if_pos h2]
      rw [hk, List.range_succ_eq_map]
      simp [List.map_map, Function.comp_def, pow_succ]
      intro a ha
      ring
  | case4 n t ht sleeps checks code h h1 h2 =>
      refine ⟨0, ?_⟩
      rw [pollLoop.eq_def, h]
      simp [h1, h2]

/-- `pollsUntil` is at least one poll. -/
theorem pollsUntil_pos (time_out t : Nat) (ht : 0 < t) : 1 ≤ pollsUntil time_out t ht := by
  rw [pollsUntil.eq_def]
  split <;> omega

/-- `pollLoop` makes at most `pollsUntil` further polls, and exactly that
many when it ends in the timeout outcome (`status` false with a recorded
`tsk_info`, distinguishing it from the exception outcome). -/
theorem pollLoop_polls (tsk_id : String) (provider : Nat → PollResp) (time_out : Nat)
    (n t : Nat) (ht : 0 < t) (sleeps checks : List Nat) :
    (pollLoop tsk_id provider time_out n t ht sleeps checks).polls ≤ n + pollsUntil time_out t ht ∧
      ((pollLoop tsk_id provider time_out n t ht sleeps checks).status = false ∧
        ((pollLoop tsk_id provider time_out n t ht sleeps checks).tsk_info).isSome = true →
        (pollLoop tsk_id provider time_out n t ht sleeps checks).polls = n + pollsUntil time_out t ht) := by
  induction n, t, ht, sleeps, checks using pollLoop.induct tsk_id provider time_out with
  | case1 n t ht sleeps checks e h =>
      rw [pollLoop.eq_def, h]
      have := pollsUntil_pos time_out t ht
      constructor
      · simp; omega
      · simp
  | case2 n t ht sleeps checks code h h1 =>
      rw [pollLoop.eq_def, h]
      rw [pollsUntil.eq_def, dif_pos h1]
      simp [h1]
  | case3 n t ht sleeps checks code h h1 h2 ih =>
      rw [pollLoop.eq_def, h]
      simp only [dif_neg h1, if_pos h2]
      rw [pollsUntil.eq_def, dif_neg h1]
      obtain ⟨ihb, ihe⟩ := ih
      constructor
      · omega
      · intro hx
        have := ihe hx
        omega
  | case4 n t ht sleeps checks code h h1 h2 =>
      rw [pollLoop.eq_def, h]
      have := pollsUntil_pos time_out t ht
      simp [h1, h2]
      omega

/-- Unfolding of the filtering loop: the accumulator grows by exactly the
matching log groups, and `status` becomes true as soon as one matches. -/
theorem filter_foldl (cw : List String) (lgs : List LogGroup) (acc : FilterResult) :
    lgs.foldl
      (fun acc lg =>
        if lg.logGroupName ∈ cw then
          { acc with log_groups := acc.log_groups ++ [lg], status := true }
        else acc) acc =
      { status := acc.status || !(lgs.filter fun lg => decide (lg.logGroupName ∈ cw)).isEmpty,
        log_groups := acc.log_groups ++ lgs.filter fun lg => decide (lg.logGroupName ∈ cw),
        error_message := acc.error_message } := by
  induction lgs generalizing acc with
  | nil => simp
  | cons lg lgs ih =>
      simp only [List.foldl_cons, List.filter_cons]
      by_cases h : lg.logGroupName ∈ cw
      · rw [if_pos h, ih]
        simp [h]
      · rw [if_neg h, ih]
        simp [h]

/-- `filter_logs_to_export` keeps exactly the log groups whose name is in
the configured list, in input order; `status` is true iff some group
matched; `error_message` is never written. -/
theorem filter_logs_spec (cw : List String) (lgs : List LogGroup) :
    filter_logs_to_export cw lgs =
      { status := !(lgs.filter fun lg => decide (lg.logGroupName ∈ cw)).isEmpty,
        log_groups := lgs.filter fun lg => decide (lg.logGroupName ∈ cw),
        error_message := "" } := by
  rw [filter_logs_to_export, filter_foldl]
  simp

/-- With an empty filtered set, `lambda_handler` takes the error return of
source lines 328-333. -/
theorem lambda_handler_empty (cw : List String) (lgs : List LogGroup)
    (time_out : Nat) (env : String → SourceEnv)
    (h : (filter_logs_to_export cw lgs).log_groups = []) :
    lambda_handler cw lgs time_out env =
      { status := false,
        error_message :=
          "There are no log group matching the filter or Unable to get a filtered list of cloudwatch Logs."
            ++ " ERROR:" ++ "",
        export_tasks := [] } := by
  rw [lambda_handler]
  rw [filter_logs_spec] at h ⊢
  simp at h
  simp [h]
  all_goals exact h

/-- With a non-empty filtered set, `lambda_handler` runs the export for
every filtered group in order and reports run-level success. -/
theorem lambda_handler_nonempty (cw : List String) (lgs : List LogGroup)
    (time_out : Nat) (env : String → SourceEnv)
    (h : (filter_logs_to_export cw lgs).log_groups ≠ []) :
    lambda_handler cw lgs time_out env =
      { status := true, error_message := "",
        export_tasks := (filter_logs_to_export cw lgs).log_groups.map fun lg =>
          export_cw_logs_to_s3 time_out (env lg.logGroupName).bucket
            (env lg.logGroupName).submit (env lg.logGroupName).provider } := by
  rw [lambda_handler]
  rw [filter_logs_spec] at h ⊢
  simp at h
  simp [h]

/-! ## Claims -/

/-- C1 (code bug, evaluated at the failing input): with a succeeding bucket
check and submission, a poller invocation that ends in a timeout failure
(timeout 10, provider always reporting RUNNING) still yields a per-source
outcome with `status` true and an empty `error_message`, because source
line 256 branches on the bucket-check result `resp` instead of the poll
result `r`; the claim says the outcome must have succeeded = false and
carry the poller's error message. -/
theorem c1_poller_failure_reported_success :
    (get_tsk_status "tid-1" (fun _ => PollResp.ok "RUNNING") 10).status = false ∧
    (get_tsk_status "tid-1" (fun _ => PollResp.ok "RUNNING") 10).error_message =
      "Task:tid-1 is still running. Status:RUNNING" ∧
    export_cw_logs_to_s3 10 { status := true, error_message := "" }
        (Except.ok "tid-1") (fun _ => PollResp.ok "RUNNING") =
      { status := true, task_info := some "RUNNING", error_message := "",
        submitted := true } := by
  refine ⟨?_, ?_, ?_⟩
  · simp [get_tsk_status, pollLoop]
  · simp [get_tsk_status, pollLoop]
  · simp [export_cw_logs_to_s3, get_tsk_status, pollLoop]

/-- C2 counterexample: at retention offset `r = 0` (claimed to be covered
by "for every r >= 0") the code's falsy test replaces 0 by the default 90,
so the produced window is not `to = now - 0 days`, `from = now - 1 day`:
at `now = 0` the window is 90/91 days in the past. -/
theorem c2_retention_zero_counterexample :
    ¬ ((export_window 0 0).t_time = 0 - (0 : Int) * msPerDay ∧
       (export_window 0 0).f_time = 0 - ((0 : Int) + 1) * msPerDay) := by
  decide

/-- C2 (amended): for every retention offset r >= 1 and fixed reference
instant now, the window has `to = now - r days`, `from = now - (r+1) days`,
and `to - from` is exactly 24 hours; a retention offset of 0 is falsy in
the source and is replaced by the default 90 before the computation. -/
theorem c2_window_offsets (now_ms : Int) (r : Nat) (hr : 1 ≤ r) :
    (export_window now_ms r).t_time = now_ms - (r : Int) * msPerDay ∧
    (export_window now_ms r).f_time = now_ms - ((r : Int) + 1) * msPerDay ∧
    (export_window now_ms r).t_time - (export_window now_ms r).f_time =
      24 * 60 * 60 * 1000 := by
  have hr0 : ¬ (r = 0) := by omega
  refine ⟨?_, ?_, ?_⟩ <;> simp [export_window, hr0, msPerDay] <;> ring

/-- C2 witness: the amended window theorem applied at now = 1700000000000,
r = 90. -/
theorem c2_window_offsets_witness :
    (1 : Nat) ≤ 90 ∧
    (export_window 1700000000000 90).t_time = 1700000000000 - (90 : Int) * msPerDay :=
  ⟨by decide, (c2_window_offsets 1700000000000 90 (by decide)).1⟩

/-- C3: with timeout = 10 and a provider whose first two polls answer a
non-COMPLETED status, the counter values observed at the timeout checks
are 3, 6, 12, the counter exceeds 10 on the third poll, exactly 2 sleep
cycles happen, and the result is a timed-out failure whose message names
the task id and the last observed provider status code (whatever the third
poll reports). -/
theorem c3_timeout10_two_sleeps (tsk_id : String) (provider : Nat → PollResp)
    (c0 c1 c2 : String)
    (h0 : provider 0 = PollResp.ok c0) (hc0 : c0 ≠ "COMPLETED")
    (h1 : provider 1 = PollResp.ok c1) (hc1 : c1 ≠ "COMPLETED")
    (h2 : provider 2 = PollResp.ok c2) :
    get_tsk_status tsk_id provider 10 =
      { status := false, tsk_info := some c2,
        error_message := "Task:" ++ tsk_id ++ " is still running. Status:" ++ c2,
        sleeps := [6, 12], checks := [3, 6, 12], polls := 3 } := by
  rw [get_tsk_status]
  rw [pollLoop.eq_def, h0]
  norm_num
  rw [if_neg hc0]
  rw [pollLoop.eq_def, h1]
  norm_num
  rw [if_neg hc1]
  rw [pollLoop.eq_def, h2]
  norm_num

/-- C3 witness: the timeout-10 theorem applied to a provider that always
reports RUNNING. -/
theorem c3_timeout10_two_sleeps_witness :
    get_tsk_status "tsk-1" (fun _ => PollResp.ok "RUNNING") 10 =
      { status := false, tsk_info := some "RUNNING",
        error_message := "Task:" ++ "tsk-1" ++ " is still running. Status:" ++ "RUNNING",
        sleeps := [6, 12], checks := [3, 6, 12], polls := 3 } :=
  c3_timeout10_two_sleeps "tsk-1" _ "RUNNING" "RUNNING" "RUNNING"
    rfl (by decide) rfl (by decide) rfl

/-- C4 counterexample: with timeout 10 and a provider always reporting
PENDING, the slept durations are [6, 12], not the claimed [3, 6]: the
source doubles the counter before sleeping, so the wait before the first
re-poll is 6 time units, not the seed 3. -/
theorem c4_first_sleep_counterexample :
    (get_tsk_status "tsk-1" (fun _ => PollResp.ok "PENDING") 10).sleeps = [6, 12] ∧
    (get_tsk_status "tsk-1" (fun _ => PollResp.ok "PENDING") 10).sleeps ≠ [3, 6] := by
  constructor
  · simp [get_tsk_status, pollLoop]
  · simp [get_tsk_status, pollLoop]

/-- C4 (amended): the counter is seeded at 3 but doubled before each sleep,
so the wait before the first re-poll is 6 time units and each subsequent
wait doubles: the slept durations are always a prefix of 6, 12, 24, ...,
i.e. the i-th sleep (0-based) is `2 ^ (i + 1) * 3`. -/
theorem c4_sleep_doubling (tsk_id : String) (provider : Nat → PollResp)
    (time_out : Nat) :
    ∃ k, (get_tsk_status tsk_id provider time_out).sleeps =
      (List.range k).map fun i => 2 ^ (i + 1) * 3 := by
  obtain ⟨k, hk⟩ := pollLoop_sleeps_shape tsk_id provider
    (if time_out = 0 then 300 else time_out) 0 3 (by omega) [] []
  refine ⟨k, ?_⟩
  rw [get_tsk_status]
  simpa using hk

/-- C5 counterexample: with the configured timeout 1 and a provider that
reports COMPLETED on the very first poll, the poller still returns failure,
because the counter check `3 > 1` fires before the COMPLETED check; the
claim says every configured timeout returns success here. -/
theorem c5_small_timeout_counterexample :
    (get_tsk_status "tsk-1" (fun _ => PollResp.ok "COMPLETED") 1).status = false := by
  simp [get_tsk_status, pollLoop]

/-- C5 (amended): for every configured timeout that is falsy (0, replaced
by the default 300) or at least the initial seed 3, a provider reporting
COMPLETED on the first poll makes the poller return success with zero
sleep cycles; nonzero timeouts below 3 instead hit the timeout branch on
the first poll (see C10). -/
theorem c5_completed_first_poll (tsk_id : String) (provider : Nat → PollResp)
    (time_out : Nat) (h : time_out = 0 ∨ 3 ≤ time_out)
    (h0 : provider 0 = PollResp.ok "COMPLETED") :
    get_tsk_status tsk_id provider time_out =
      { status := true, tsk_info := some "COMPLETED", error_message := "",
        sleeps := [], checks := [3], polls := 1 } := by
  rw [get_tsk_status]
  rcases h with h | h
  · subst h
    norm_num
    rw [pollLoop.eq_def, h0]
    norm_num
  · have hne : ¬ (time_out = 0) := by omega
    simp only [if_neg hne]
    rw [pollLoop.eq_def, h0]
    have h3 : ¬ (3 > time_out) := by omega
    simp [h3]

/-- C5 witness: the amended first-poll-COMPLETED theorem applied at the
default timeout 300. -/
theorem c5_completed_first_poll_witness :
    get_tsk_status "tsk-1" (fun _ => PollResp.ok "COMPLETED") 300 =
      { status := true, tsk_info := some "COMPLETED", error_message := "",
        sleeps := [], checks := [3], polls := 1 } :=
  c5_completed_first_poll "tsk-1" _ 300 (Or.inr (by norm_num)) rfl

/-- C6: when the filtered source list is empty, the run returns a
run-level failure with the descriptive message of source lines 329-331 and
performs no export submissions (the export-task list is empty). -/
theorem c6_empty_filter_run_failure (cw : List String) (lgs : List LogGroup)
    (time_out : Nat) (env : String → SourceEnv)
    (h : (filter_logs_to_export cw lgs).log_groups = []) :
    (lambda_handler cw lgs time_out env).status = false ∧
    (lambda_handler cw lgs time_out env).error_message =
      "There are no log group matching the filter or Unable to get a filtered list of cloudwatch Logs. ERROR:" ∧
    (lambda_handler cw lgs time_out env).export_tasks = [] := by
  rw [lambda_handler_empty cw lgs time_out env h]
  refine ⟨rfl, ?_, rfl⟩
  decide

/-- C6 witness: the empty-filter theorem applied to a listing whose only
group does not match the configured filter. -/
theorem c6_empty_filter_run_failure_witness :
    ((lambda_handler ["a"] [{ logGroupName := "b" }] 300
        (fun _ => { bucket := { status := true, error_message := "" },
                    submit := Except.ok "tid",
                    provider := fun _ => PollResp.ok "COMPLETED" })).status = false ∧
      (lambda_handler ["a"] [{ logGroupName := "b" }] 300
        (fun _ => { bucket := { status := true, error_message := "" },
                    submit := Except.ok "tid",
                    provider := fun _ => PollResp.ok "COMPLETED" })).export_tasks = []) := by
  have h := c6_empty_filter_run_failure ["a"] [{ logGroupName := "b" }] 300
    (fun _ => { bucket := { status := true, error_message := "" },
                submit := Except.ok "tid",
                provider := fun _ => PollResp.ok "COMPLETED" })
    (by decide)
  exact ⟨h.1, h.2.2⟩

/-- C7: the orchestrator produces one outcome per filtered source, in input
order (the outcome list is the map of the per-source export over the
filtered list), and the run-level status is success iff at least one
source was present and processed, even when individual sources fail. -/
theorem c7_outcomes_order_and_status (cw : List String) (lgs : List LogGroup)
    (time_out : Nat) (env : String → SourceEnv) :
    ((lambda_handler cw lgs time_out env).status = true ↔
      (filter_logs_to_export cw lgs).log_groups ≠ []) ∧
    ((filter_logs_to_export cw lgs).log_groups ≠ [] →
      (lambda_handler cw lgs time_out env).export_tasks =
        (filter_logs_to_export cw lgs).log_groups.map fun lg =>
          export_cw_logs_to_s3 time_out (env lg.logGroupName).bucket
            (env lg.logGroupName).submit (env lg.logGroupName).provider) := by
  by_cases h : (filter_logs_to_export cw lgs).log_groups = []
  · rw [lambda_handler_empty cw lgs time_out env h]
    simp [h]
  · rw [lambda_handler_nonempty cw lgs time_out env h]
    simp [h]

/-- C7 witness: sources [A, B] where A's destination check fails and B
succeeds end-to-end yield outcomes [A failed, B succeeded] in input order
with overall run success. -/
theorem c7_outcomes_order_and_status_witness :
    (lambda_handler ["/aws/lambda/A", "/aws/lambda/B"]
        [{ logGroupName := "/aws/lambda/A" }, { logGroupName := "/aws/lambda/B" }] 300
        (fun name =>
          if name = "/aws/lambda/A" then
            { bucket := { status := false, error_message := "bucket missing" },
              submit := Except.ok "tid-A",
              provider := fun _ => PollResp.ok "COMPLETED" }
          else
            { bucket := { status := true, error_message := "" },
              submit := Except.ok "tid-B",
              provider := fun _ => PollResp.ok "COMPLETED" })).export_tasks =
      [ { status := false, task_info := none, error_message := "bucket missing",
          submitted := false },
        { status := true, task_info := some "COMPLETED", error_message := "",
          submitted := true } ] ∧
    (lambda_handler ["/aws/lambda/A", "/aws/lambda/B"]
        [{ logGroupName := "/aws/lambda/A" }, { logGroupName := "/aws/lambda/B" }] 300
        (fun name =>
          if name = "/aws/lambda/A" then
            { bucket := { status := false, error_message := "bucket missing" },
              submit := Except.ok "tid-A",
              provider := fun _ => PollResp.ok "COMPLETED" }
          else
            { bucket := { status := true, error_message := "" },
              submit := Except.ok "tid-B",
              provider := fun _ => PollResp.ok "COMPLETED" })).status = true := by
  have h := c7_outcomes_order_and_status ["/aws/lambda/A", "/aws/lambda/B"]
    [{ logGroupName := "/aws/lambda/A" }, { logGroupName := "/aws/lambda/B" }] 300
    (fun name =>
      if name = "/aws/lambda/A" then
        { bucket := { status := false, error_message := "bucket missing" },
          submit := Except.ok "tid-A",
          provider := fun _ => PollResp.ok "COMPLETED" }
      else
        { bucket := { status := true, error_message := "" },
          submit := Except.ok "tid-B",
          provider := fun _ => PollResp.ok "COMPLETED" })
  constructor
  · rw [h.2 (by decide)]
    simp [filter_logs_spec, export_cw_logs_to_s3, get_tsk_status, pollLoop]
  · exact h.1.mpr (by decide)

/-- C8: when a source's destination validation fails, no export request is
submitted for it (`submitted` is false), the validator's error is recorded
in that source's outcome, and every filtered source still yields an
outcome while the run keeps run-level success. -/
theorem c8_destination_failure_skips_source (time_out : Nat)
    (bucket : BucketExistsStatus) (submit : Except String String)
    (provider : Nat → PollResp) (hb : bucket.status = false) :
    export_cw_logs_to_s3 time_out bucket submit provider =
      { status := false, task_info := none,
        error_message := bucket.error_message, submitted := false } ∧
    ∀ (cw : List String) (lgs : List LogGroup) (env : String → SourceEnv),
      (filter_logs_to_export cw lgs).log_groups ≠ [] →
      (lambda_handler cw lgs time_out env).status = true ∧
      (lambda_handler cw lgs time_out env).export_tasks.length =
        (filter_logs_to_export cw lgs).log_groups.length := by
  constructor
  · simp [export_cw_logs_to_s3, hb]
  · intro cw lgs env h
    rw [lambda_handler_nonempty cw lgs time_out env h]
    simp

/-- C8 witness: the destination-failure theorem applied to a source whose
bucket check fails with "no such bucket". -/
theorem c8_destination_failure_skips_source_witness :
    export_cw_logs_to_s3 300 { status := false, error_message := "no such bucket" }
        (Except.ok "tid") (fun _ => PollResp.ok "COMPLETED") =
      { status := false, task_info := none, error_message := "no such bucket",
        submitted := false } ∧
    (lambda_handler ["g"] [{ logGroupName := "g" }] 300
        (fun _ => { bucket := { status := false, error_message := "no such bucket" },
                    submit := Except.ok "tid",
                    provider := fun _ => PollResp.ok "COMPLETED" })).export_tasks.length = 1 := by
  have h := c8_destination_failure_skips_source 300
    { status := false, error_message := "no such bucket" }
    (Except.ok "tid") (fun _ => PollResp.ok "COMPLETED") rfl
  refine ⟨h.1, ?_⟩
  rw [(h.2 ["g"] [{ logGroupName := "g" }]
    (fun _ => { bucket := { status := false, error_message := "no such bucket" },
                submit := Except.ok "tid",
                provider := fun _ => PollResp.ok "COMPLETED" }) (by decide)).2]
  decide

/-- C9: for every fixed timeout and every provider behaviour, the poller
makes at most `pollsUntil eff 3` polls, where `eff` is the effective
timeout (300 when the configured value is falsy), and when it ends in the
timeout outcome it makes exactly that many polls - a number depending only
on the timeout value, since the counter starts at 3 and doubles after each
non-COMPLETED poll until it exceeds the timeout. -/
theorem c9_polls_bounded_deterministic (tsk_id : String)
    (provider : Nat → PollResp) (time_out : Nat) :
    (get_tsk_status tsk_id provider time_out).polls ≤
      pollsUntil (if time_out = 0 then 300 else time_out) 3 (by omega) ∧
    ((get_tsk_status tsk_id provider time_out).status = false ∧
      ((get_tsk_status tsk_id provider time_out).tsk_info).isSome = true →
      (get_tsk_status tsk_id provider time_out).polls =
        pollsUntil (if time_out = 0 then 300 else time_out) 3 (by omega)) := by
  have h := pollLoop_polls tsk_id provider (if time_out = 0 then 300 else time_out)
    0 3 (by omega) [] []
  rw [get_tsk_status]
  simpa using h

/-- C9 witness: the bound theorem applied to a provider that always
reports RUNNING with timeout 10, whose run ends in the timeout outcome. -/
theorem c9_polls_bounded_deterministic_witness :
    (get_tsk_status "tsk-1" (fun _ => PollResp.ok "RUNNING") 10).polls =
      pollsUntil 10 3 (by omega) := by
  have h := (c9_polls_bounded_deterministic "tsk-1" (fun _ => PollResp.ok "RUNNING") 10).2
  norm_num at h
  exact h (by simp [get_tsk_status, pollLoop]) (by simp [get_tsk_status, pollLoop])

/-- C10: a nonzero configured timeout strictly below the seed 3 makes the
poller perform exactly one status poll and zero sleeps and return the
timed-out "still running" failure naming the task id and the observed
status code, regardless of that status - even when it is COMPLETED. -/
theorem c10_timeout_below_seed (tsk_id : String) (provider : Nat → PollResp)
    (time_out : Nat) (h1 : time_out ≠ 0) (h2 : time_out < 3)
    (code : String) (h0 : provider 0 = PollResp.ok code) :
    get_tsk_status tsk_id provider time_out =
      { status := false, tsk_info := some code,
        error_message := "Task:" ++ tsk_id ++ " is still running. Status:" ++ code,
        sleeps := [], checks := [3], polls := 1 } := by
  rw [get_tsk_status]
  simp only [if_neg h1]
  rw [pollLoop.eq_def, h0]
  have hgt : 3 > time_out := by omega
  simp [hgt]

/-- C10 witness: timeout 2 with a first poll reporting COMPLETED still
yields the one-poll timeout failure. -/
theorem c10_timeout_below_seed_witness :
    get_tsk_status "tsk-1" (fun _ => PollResp.ok "COMPLETED") 2 =
      { status := false, tsk_info := some "COMPLETED",
        error_message := "Task:" ++ "tsk-1" ++ " is still running. Status:" ++ "COMPLETED",
        sleeps := [], checks := [3], polls := 1 } :=
  c10_timeout_below_seed "tsk-1" _ 2 (by decide) (by decide) "COMPLETED" rfl

end CwExporter
